import Mathlib

/-!
A verification development for the networking core of the rust-csfml toolkit
binding: the typed binary Packet container, the socket error taxonomy, the
TCP/UDP socket wrappers, and the IpAddress type.

The repository's network module is a thin wrapper over the csfml transport.
The wrapper code (src/src/network/*.rs) is embedded function by function; the
transport calls it makes (the csfml-sys crate, whose bindings are not part of
src/) are modelled from the specification and each such definition says so in
its doc comment.

Bytes and C characters are modelled as natural numbers below 256; byte strings
as lists of such numbers; machine pointers as natural-number handles, with
`Option` marking nullability where the source checks for null.
-/

namespace RustCsfml

/-- Outcome of a call that may panic: either a normal return or a panic
(the source reaches a panic through `code_to_err`'s catch-all arm and through
`todo!()`). -/
inductive PanicOr (α : Type) where
  | returns (val : α)
  | panicked
deriving DecidableEq

/-- The socket error taxonomy of src/src/network/error.rs (`enum Error`). -/
inductive Error where
  | NotReady
  | Partial
  | Disconnected
  | OtherError
deriving DecidableEq

/-- Modelled from the spec: the csfml-sys crate's `sfSocketStatus` code for a
completed operation (`Done`), first of the five known transport status codes. -/
def sfSocketDone : Int := 0

/-- Modelled from the spec: the csfml-sys status code for a non-blocking
operation that could not complete immediately. -/
def sfSocketNotReady : Int := 1

/-- Modelled from the spec: the csfml-sys status code for an operation that
transferred fewer bytes than requested. -/
def sfSocketPartial : Int := 2

/-- Modelled from the spec: the csfml-sys status code for a cleanly closed
connection. -/
def sfSocketDisconnected : Int := 3

/-- Modelled from the spec: the csfml-sys status code for any other failure. -/
def sfSocketError : Int := 4

/-- `code_to_err` of src/src/network/error.rs: maps the five known transport
status codes to `Result<(), Error>` and panics on any other value. -/
def code_to_err (code : Int) : PanicOr (Except Error Unit) :=
  if code = sfSocketDone then .returns (.ok ())
  else if code = sfSocketNotReady then .returns (.error .NotReady)
  else if code = sfSocketPartial then .returns (.error .Partial)
  else if code = sfSocketDisconnected then .returns (.error .Disconnected)
  else if code = sfSocketError then .returns (.error .OtherError)
  else .panicked

/-- `TcpSocket` of src/src/network/socket.rs, reduced to the native handle it
owns; the handle value stands for the `*mut sfTcpSocket` pointer. -/
structure TcpSocket where
  ptr : Nat
deriving DecidableEq

/-- `TcpListener::accept` of src/src/network/socket.rs. The transport call
`sfTcpListener_accept` is abstracted by its outputs: the status `code` it
returns and the fresh handle `ret` it writes through the out-pointer. The
source first short-circuits the non-blocking `sfSocketNotReady` case to
`Ok(None)`, then maps every other failure through
`code_to_err(code).map_err(|_| Error::OtherError)?` (the question mark wraps
the error into `Some`), and finally wraps the fresh handle. -/
def TcpListener.accept (blocking : Bool) (code : Int) (ret : Nat) :
    PanicOr (Except (Option Error) (Option TcpSocket)) :=
  if blocking = false ∧ code = sfSocketNotReady then .returns (.ok none)
  else
    match code_to_err code with
    | .panicked => .panicked
    | .returns (.error _) => .returns (.error (some .OtherError))
    | .returns (.ok _) => .returns (.ok (some ⟨ret⟩))

/-- `TcpSocket::send_partial` of src/src/network/socket.rs. The transport call
`sfTcpSocket_sendPartial` is abstracted by its outputs: the status `code` and
the byte count `sent` it writes through the out-pointer. The source runs
`code_to_err(code)?` before building `&data[sent..]`, so any non-`Done` status
returns early with the error and the suffix is never produced. -/
def TcpSocket.send_partial (data : List Nat) (code : Int) (sent : Nat) :
    PanicOr (Except Error (List Nat)) :=
  match code_to_err code with
  | .panicked => .panicked
  | .returns (.error e) => .returns (.error e)
  | .returns (.ok _) => .returns (.ok (data.drop sent))

/-- `TcpSocket::receive` of src/src/network/socket.rs. The transport call
`sfTcpSocket_receive` is abstracted by its outputs: the status `code` and the
bytes `filled` it wrote into the caller's buffer. The source computes
`let _ = code_to_err(code);` — discarding the mapped error — and then returns
`Ok(&buf[..size])` unconditionally; its declared error type `i32` is never
constructed. -/
def TcpSocket.receive (code : Int) (filled : List Nat) :
    PanicOr (Except Int (List Nat)) :=
  match code_to_err code with
  | .panicked => .panicked
  | .returns _ => .returns (.ok filled)

/-- Modelled from the spec: `sfUdpSocket_destroy` of the csfml-sys crate
releases the native handle; the model appends the released handle to a log so
that release counts are observable. -/
def sfUdpSocket_destroy (ptr : Nat) (log : List Nat) : List Nat :=
  log ++ [ptr]

/-- `Drop for UdpSocket` of src/src/network/socket.rs: calls
`sfUdpSocket_destroy(self.ptr)` unconditionally. -/
def UdpSocket.dropGlue (ptr : Nat) (log : List Nat) : List Nat :=
  sfUdpSocket_destroy ptr log

/-- `UdpSocket::destroy(self)` of src/src/network/socket.rs: the body calls
`sfUdpSocket_destroy(self.ptr)`; because `self` is taken by value and never
forgotten, its `Drop` implementation runs again when the body returns. -/
def UdpSocket.destroy (ptr : Nat) (log : List Nat) : List Nat :=
  UdpSocket.dropGlue ptr (sfUdpSocket_destroy ptr log)

/-- Modelled from the spec: the state of a csfml `sfPacket` — an owned byte
sequence and a sequential read cursor with `0 ≤ readPos ≤ data.length`. -/
structure SfPacket where
  data : List Nat
  readPos : Nat
deriving DecidableEq

/-- Modelled from the spec: `sfPacket_create` yields the empty packet. -/
def sfPacket_create : SfPacket := ⟨[], 0⟩

/-- Modelled from the spec: `sfPacket_endOfPacket` is true exactly when the
read cursor has consumed the whole buffer. -/
def sfPacket_endOfPacket (p : SfPacket) : Bool :=
  decide (p.data.length ≤ p.readPos)

/-- Modelled from the spec: `sfPacket_readUint8` decodes one byte at the read
cursor and advances it; reading past the end is a recoverable failure that
leaves the cursor in place, with 0 as the value handed back through the
C return channel (which carries no failure indication). -/
def sfPacket_readUint8 (p : SfPacket) : Nat × SfPacket :=
  if p.readPos + 1 ≤ p.data.length then
    (p.data.getD p.readPos 0, { p with readPos := p.readPos + 1 })
  else (0, p)

/-- Modelled from the spec: `sfPacket_readUint32` decodes four bytes at the
read cursor (fixed-width big-endian, the canonical choice the spec leaves to
the wire contract) and advances it; past the end it fails recoverably,
leaving the cursor in place and handing back 0. -/
def sfPacket_readUint32 (p : SfPacket) : Nat × SfPacket :=
  if p.readPos + 4 ≤ p.data.length then
    (((p.data.getD p.readPos 0 * 256 + p.data.getD (p.readPos + 1) 0) * 256
        + p.data.getD (p.readPos + 2) 0) * 256 + p.data.getD (p.readPos + 3) 0,
      { p with readPos := p.readPos + 4 })
  else (0, p)

/-- Modelled from the spec: a 32-bit length prefix, fixed-width big-endian. -/
def encodeU32 (n : Nat) : List Nat :=
  [n / 16777216 % 256, n / 65536 % 256, n / 256 % 256, n % 256]

/-- Modelled from the spec: `sfPacket_writeString` appends the string's
encoding — a 32-bit length prefix followed by that many raw bytes — to the
buffer, leaving the read cursor alone. -/
def sfPacket_writeString (p : SfPacket) (s : List Nat) : SfPacket :=
  { p with data := p.data ++ encodeU32 s.length ++ s }

/-- Modelled from the spec: `sfPacket_readString` decodes the 32-bit length
prefix and that many bytes, advancing the cursor and writing the bytes through
the given buffer pointer when it is non-null; past the end it fails
recoverably. The returned pair is (what the callee wrote through the buffer
pointer, the packet state after the call). -/
def sfPacket_readString (p : SfPacket) (buf : Option (List Nat)) :
    Option (List Nat) × SfPacket :=
  let lenRead := sfPacket_readUint32 p
  let len := lenRead.1
  let p1 := lenRead.2
  if p1.readPos + len ≤ p1.data.length then
    (buf.map (fun _ => (p1.data.drop p1.readPos).take len),
      { p1 with readPos := p1.readPos + len })
  else (buf, p1)

/-- `ReadFromPacket for u8` of src/src/network/packet.rs: wraps the value
`sfPacket_readUint8` hands back in `Ok`, unconditionally. The pair carries the
wrapper's `Result<u8, String>` together with the packet state after the call
(the packet is passed by mutable reference in the source). -/
def read_from_packet_u8 (p : SfPacket) : Except String Nat × SfPacket :=
  let call := sfPacket_readUint8 p
  (.ok call.1, call.2)

/-- `ReadFromPacket for u32` of src/src/network/packet.rs: wraps the value
`sfPacket_readUint32` hands back in `Ok`, unconditionally. -/
def read_from_packet_u32 (p : SfPacket) : Except String Nat × SfPacket :=
  let call := sfPacket_readUint32 p
  (.ok call.1, call.2)

/-- `WriteToPacket for String` of src/src/network/packet.rs: `CString::new`
fails on an interior nul byte; otherwise the bytes are handed to
`sfPacket_writeString` and the write reports `Ok`. -/
def write_to_packet_string (p : SfPacket) (value : List Nat) :
    Except String SfPacket :=
  if 0 ∈ value then .error "nul byte in string"
  else .ok (sfPacket_writeString p value)

/-- `ReadFromPacket for String` of src/src/network/packet.rs: the source
declares `let cstr: *mut c_char = ptr::null_mut();`, passes `cstr` BY VALUE to
`sfPacket_readString`, and then tests `cstr.is_null()`. The call cannot update
the local `cstr`, so the test examines the unchanged null pointer and the
error branch is taken on every input; `call.1`, what the transport would have
written through the pointer, is never seen by the source. -/
def read_from_packet_string (p : SfPacket) :
    Except String (List Nat) × SfPacket :=
  let cstr : Option (List Nat) := none
  let call := sfPacket_readString p cstr
  if cstr.isNone then (.error "Failed to read string from packet", call.2)
  else (.ok (cstr.getD []), call.2)

/-- `Write for Writer` in src/src/network/packet.rs implements `flush` as
`todo!()`, which panics unconditionally; `p` is the state of the packet the
Writer view borrows. -/
def writer_flush (_p : SfPacket) : PanicOr (Except String Unit) :=
  .panicked

/-- Modelled from the spec: the ASCII decimal rendering a C `sprintf` gives a
byte value (no leading zeros); used by the csfml address constructors. Values
at most 999 render in at most three digits. -/
def renderDec (n : Nat) : List Nat :=
  if n < 10 then [48 + n]
  else if n < 100 then [48 + n / 10, 48 + n % 10]
  else [48 + n / 100, 48 + n / 10 % 10, 48 + n % 10]

/-- Helper for `parseDec`: accumulates ASCII decimal digits left to right. -/
def parseDecAux (acc : Nat) : List Nat → Option Nat
  | [] => some acc
  | c :: cs => if 48 ≤ c ∧ c ≤ 57 then parseDecAux (acc * 10 + (c - 48)) cs else none

/-- Modelled from the spec: parse a nonempty all-digit ASCII decimal run. -/
def parseDec : List Nat → Option Nat
  | [] => none
  | cs => parseDecAux 0 cs

/-- Split a byte run on the ASCII dot (46), keeping empty groups. -/
def splitOnDot : List Nat → List (List Nat)
  | [] => [[]]
  | c :: rest =>
    if c = 46 then [] :: splitOnDot rest
    else
      match splitOnDot rest with
      | [] => [[c]]
      | g :: gs => (c :: g) :: gs

/-- The bytes of a C string stored in a fixed buffer: everything before the
first nul terminator. -/
def cStrBytes (xs : List Nat) : List Nat :=
  xs.takeWhile (fun c => c != 0)

/-- The ASCII dotted-quad text of four byte values: the components rendered in
decimal and joined by dots. -/
def quadText (a b c d : Nat) : List Nat :=
  renderDec a ++ 46 :: (renderDec b ++ 46 :: (renderDec c ++ 46 :: renderDec d))

/-- Modelled from the spec: parse a dotted-quad byte run into its four byte
values; every component must be a decimal run of value at most 255. -/
def parseQuad (s : List Nat) : Option (Nat × Nat × Nat × Nat) :=
  match splitOnDot s with
  | [w, x, y, z] =>
    match parseDec w, parseDec x, parseDec y, parseDec z with
    | some a, some b, some c, some d =>
      if a ≤ 255 ∧ b ≤ 255 ∧ c ≤ 255 ∧ d ≤ 255 then some (a, b, c, d) else none
    | _, _, _, _ => none
  | _ => none

/-- Pad a byte run with nul bytes to the fixed 16-byte address size. -/
def padTo16 (xs : List Nat) : List Nat :=
  xs ++ List.replicate (16 - xs.length) 0

/-- `IpAddress` of src/src/network/ip_address.rs: the fixed-size 16-byte
array `address: [i8; 16]`, each entry modelled as the byte value. -/
structure IpAddress where
  address : List Nat
deriving DecidableEq

/-- Modelled from the spec: `sfIpAddress_fromBytes` of the csfml-sys crate
fills the fixed-size 16-byte array with the nul-padded ASCII dotted-quad text
of the four bytes — the textual representation the wrapper's Display
implementation and tests observe. -/
def sfIpAddress_fromBytes (a b c d : Nat) : IpAddress :=
  ⟨padTo16 (quadText a b c d)⟩

/-- Modelled from the spec: `sfIpAddress_fromInteger` constructs the address
from a 32-bit integer, most significant byte first. -/
def sfIpAddress_fromInteger (n : Nat) : IpAddress :=
  sfIpAddress_fromBytes (n / 16777216 % 256) (n / 65536 % 256) (n / 256 % 256) (n % 256)

/-- Modelled from the spec: `sfIpAddress_fromString` resolves a dotted-quad
byte run to the corresponding address; anything else (this model does not
resolve host names) yields the all-nul none address. -/
def sfIpAddress_fromString (s : List Nat) : IpAddress :=
  match parseQuad s with
  | some (a, b, c, d) => sfIpAddress_fromBytes a b c d
  | none => ⟨List.replicate 16 0⟩

/-- Modelled from the spec: `sfIpAddress_toInteger` reads the stored C string
back as a dotted quad and packs the four bytes, most significant first. -/
def sfIpAddress_toInteger (ip : IpAddress) : Nat :=
  match parseQuad (cStrBytes ip.address) with
  | some (a, b, c, d) => ((a * 256 + b) * 256 + c) * 256 + d
  | none => 0

/-- `IpAddress::new` of src/src/network/ip_address.rs: delegates to
`sfIpAddress_fromBytes` (`from_csfml` is a transmute, the identity here). -/
def IpAddress.new (a b c d : Nat) : IpAddress :=
  sfIpAddress_fromBytes a b c d

/-- `From<u32> for IpAddress` of src/src/network/ip_address.rs: delegates to
`sfIpAddress_fromInteger`. -/
def IpAddress.from_u32 (n : Nat) : IpAddress :=
  sfIpAddress_fromInteger n

/-- `IpAddress::none` of src/src/network/ip_address.rs: `Self::from(0)`. -/
def IpAddress.none : IpAddress :=
  IpAddress.from_u32 0

/-- `TryFrom<&str> for IpAddress` of src/src/network/ip_address.rs:
`CString::from_str` fails on an interior nul byte; otherwise the bytes go to
`sfIpAddress_fromString`. -/
def IpAddress.try_from_str (s : List Nat) : Except String IpAddress :=
  if 0 ∈ s then .error "nul byte in string"
  else .ok (sfIpAddress_fromString s)

/-- `IpAddress::to_int` of src/src/network/ip_address.rs: delegates to
`sfIpAddress_toInteger` (`to_csfml` is a transmute, the identity here). -/
def IpAddress.to_int (ip : IpAddress) : Nat :=
  sfIpAddress_toInteger ip

/-- The `join(".")` of the Display implementation: concatenates the parts with
the ASCII dot between consecutive ones. -/
def joinDot : List (List Nat) → List Nat
  | [] => []
  | [p] => p
  | p :: ps => p ++ 46 :: joinDot ps

/-- `Display for IpAddress` of src/src/network/ip_address.rs, as the byte run
of the produced text: `slice.iter().rev().take(4).rev()` walks the LAST four
bytes of the 16-byte array, each is pushed as the one-character string of that
byte (`*chunk as u8 as char`), and the parts are joined with ".". -/
def IpAddress.display (ip : IpAddress) : List Nat :=
  joinDot (((ip.address.reverse.take 4).reverse).map (fun c => [c]))

/-- `IpAndPort` of src/src/network/socket.rs. -/
structure IpAndPort where
  ip : IpAddress
  port : Nat
deriving DecidableEq

/-- `ReceivedRaw` of src/src/network/socket.rs. -/
structure ReceivedRaw where
  data : List Nat
  sender : IpAndPort
deriving DecidableEq

/-- `UdpSocket::receive` of src/src/network/socket.rs. The transport call
`sfUdpSocket_receive` is abstracted by its outputs: the status `code`, the
bytes `payload` written into the caller's buffer, and the sender endpoint
`senderIp`/`senderPort` it reports through the two out-arguments. The source
initializes `remote` to `IpAddress::none()` and port 0; the ip out-argument it
passes is `&mut remote.ip.to_csfml()` — a reference to a TEMPORARY copy — so
the transport's write of `senderIp` lands in the discarded temporary
(`_ipOutSlot` here) and `remote.ip` keeps the none sentinel, while the port
out-argument `&mut remote.port` does update `remote`. -/
def UdpSocket.receive (code : Int) (payload : List Nat) (senderIp : IpAddress)
    (senderPort : Nat) : PanicOr (Except Error ReceivedRaw) :=
  let remote0 : IpAndPort := ⟨IpAddress.none, 0⟩
  let _ipOutSlot : IpAddress := senderIp
  let remote1 : IpAndPort := ⟨remote0.ip, senderPort⟩
  match code_to_err code with
  | .panicked => .panicked
  | .returns (.error e) => .returns (.error e)
  | .returns (.ok _) => .returns (.ok ⟨payload, remote1⟩)

/-- `UdpSocket::receive_packet` of src/src/network/socket.rs: same shape as
`UdpSocket::receive` — and the same discarded temporary for the sender ip —
returning the sender endpoint after refilling the packet. -/
def UdpSocket.receive_packet (code : Int) (senderIp : IpAddress)
    (senderPort : Nat) : PanicOr (Except Error IpAndPort) :=
  let remote0 : IpAndPort := ⟨IpAddress.none, 0⟩
  let _ipOutSlot : IpAddress := senderIp
  let remote1 : IpAndPort := ⟨remote0.ip, senderPort⟩
  match code_to_err code with
  | .panicked => .panicked
  | .returns (.error e) => .returns (.error e)
  | .returns (.ok _) => .returns (.ok remote1)

end RustCsfml

namespace RustCsfml

/-- The claim C5: `code_to_err` maps Done to Ok, NotReady/Partial/Disconnected
to the matching error, Error to OtherError, and panics on any status outside
the known five. -/
theorem code_to_err_total_mapping :
    code_to_err sfSocketDone = .returns (.ok ())
      ∧ code_to_err sfSocketNotReady = .returns (.error .NotReady)
      ∧ code_to_err sfSocketPartial = .returns (.error .Partial)
      ∧ code_to_err sfSocketDisconnected = .returns (.error .Disconnected)
      ∧ code_to_err sfSocketError = .returns (.error .OtherError)
      ∧ ∀ code : Int, code ≠ sfSocketDone → code ≠ sfSocketNotReady →
          code ≠ sfSocketPartial → code ≠ sfSocketDisconnected →
          code ≠ sfSocketError → code_to_err code = .panicked := by
  refine ⟨rfl, rfl, rfl, rfl, rfl, ?_⟩
  intro code h0 h1 h2 h3 h4
  simp only [code_to_err, if_neg h0, if_neg h1, if_neg h2, if_neg h3, if_neg h4]

/-- Witness for C5: the out-of-range status 7 panics. -/
theorem code_to_err_total_mapping_witness : code_to_err 7 = .panicked := by
  have h := code_to_err_total_mapping
  exact h.2.2.2.2.2 7 (by decide) (by decide) (by decide) (by decide) (by decide)

/-- The claim C7: `TcpListener::accept` returns Ok(None) for a non-blocking
listener when the transport reports NotReady; surfaces every other failure
status as OtherError; and on success returns Some of a TcpSocket owning the
fresh handle the transport produced. -/
theorem tcp_listener_accept_spec :
    (∀ ret : Nat,
        TcpListener.accept false sfSocketNotReady ret = .returns (.ok none))
      ∧ (∀ (blocking : Bool) (code : Int) (ret : Nat) (e : Error),
          code_to_err code = .returns (.error e) →
          ¬(blocking = false ∧ code = sfSocketNotReady) →
          TcpListener.accept blocking code ret
            = .returns (.error (some .OtherError)))
      ∧ (∀ (blocking : Bool) (ret : Nat),
          TcpListener.accept blocking sfSocketDone ret
            = .returns (.ok (some ⟨ret⟩))) := by
  refine ⟨fun ret => rfl, ?_, ?_⟩
  · intro blocking code ret e hcode hnot
    simp only [TcpListener.accept, if_neg hnot, hcode]
  · intro blocking ret
    cases blocking <;> rfl

/-- Witness for C7: a blocking accept meeting a Disconnected status is
surfaced as OtherError. -/
theorem tcp_listener_accept_spec_witness :
    TcpListener.accept true sfSocketDisconnected 5
      = .returns (.error (some .OtherError)) := by
  have h := tcp_listener_accept_spec
  exact h.2.1 true sfSocketDisconnected 5 .Disconnected rfl (by decide)

/-- The claim C3 evaluated at its failing input: when the transport sends one
byte of [1, 2, 3] and reports Partial, `send_partial` returns Err(Partial) —
the unsent suffix [2, 3] (which `List.drop 1` would have produced) is
discarded, so the caller cannot resume. -/
theorem send_partial_discards_remainder :
    TcpSocket.send_partial [1, 2, 3] sfSocketPartial 1
        = .returns (.error .Partial)
      ∧ [1, 2, 3].drop 1 = [2, 3] := ⟨rfl, rfl⟩

/-- The claim C6 evaluated at its failing input: a receive whose transport
status is Disconnected still returns Ok (with the empty filled slice); the
error is silently swallowed by `let _ = code_to_err(code)`. -/
theorem tcp_receive_swallows_disconnect :
    TcpSocket.receive sfSocketDisconnected [] = .returns (.ok []) := rfl

/-- The claim C8 evaluated at its failing input: calling `UdpSocket::destroy`
on a socket holding handle 5 releases that handle twice — once in the body and
once more when the by-value `self` is dropped. -/
theorem udp_destroy_releases_twice :
    (UdpSocket.destroy 5 []).count 5 = 2 := rfl

/-- The claim C1 evaluated at its failing input: writing the string "oh:"
(bytes 111, 104, 58) to a fresh packet succeeds and produces the
length-prefixed buffer, but reading it back with `read::<String>` returns Err
on that very packet — the round trip fails for any sequence containing a
String. -/
theorem packet_string_roundtrip_fails :
    write_to_packet_string sfPacket_create [111, 104, 58]
        = .ok ⟨[0, 0, 0, 3, 111, 104, 58], 0⟩
      ∧ (read_from_packet_string ⟨[0, 0, 0, 3, 111, 104, 58], 0⟩).1
        = .error "Failed to read string from packet" := by
  constructor <;> rfl

/-- Counterexample to the claim C2: on the fresh (hence at-end) packet, the
typed read `read::<u8>` returns the successful result Ok(0), not a recoverable
failure. -/
theorem read_u8_at_end_is_ok_cex :
    sfPacket_endOfPacket sfPacket_create = true
      ∧ read_from_packet_u8 sfPacket_create = (.ok 0, sfPacket_create) := by
  constructor <;> rfl

/-- The claim C2 as amended: once `is_at_end()` is true, a typed read
(`read::<u8>`, `read::<u32>`) does not panic but returns Ok carrying the
transport's default value 0, with the read cursor unchanged — the wrapper
never surfaces the end-of-packet condition as an error. -/
theorem read_past_end_returns_default_ok (p : SfPacket)
    (h : sfPacket_endOfPacket p = true) :
    read_from_packet_u8 p = (.ok 0, p)
      ∧ read_from_packet_u32 p = (.ok 0, p) := by
  have hle : p.data.length ≤ p.readPos := of_decide_eq_true h
  constructor
  · simp only [read_from_packet_u8, sfPacket_readUint8]
    rw [if_neg (by omega)]
  · simp only [read_from_packet_u32, sfPacket_readUint32]
    rw [if_neg (by omega)]

/-- Witness for the amended C2: the fresh empty packet is at end, and both
typed reads return Ok(0) leaving the state unchanged. -/
theorem read_past_end_returns_default_ok_witness :
    read_from_packet_u8 sfPacket_create = (.ok 0, sfPacket_create)
      ∧ read_from_packet_u32 sfPacket_create = (.ok 0, sfPacket_create) := by
  have h := read_past_end_returns_default_ok sfPacket_create (by decide)
  exact h

/-- The claim C10: the `flush` of the `std::io::Write` implementation on a
packet Writer view panics for every state of the underlying packet. -/
theorem writer_flush_always_panics :
    ∀ p : SfPacket, writer_flush p = .panicked := fun _ => rfl

/-- The claim C4 evaluated at its failing input: a successful receive (status
Done) of two bytes from the remote sender 192.168.0.9 port 4242 hands back the
sentinel `IpAddress::none()` as the sender ip — only the port reaches the
caller — and `receive_packet` behaves the same way. -/
theorem udp_receive_sender_ip_is_sentinel :
    UdpSocket.receive sfSocketDone [7, 8] (IpAddress.new 192 168 0 9) 4242
        = .returns (.ok ⟨[7, 8], ⟨IpAddress.none, 4242⟩⟩)
      ∧ UdpSocket.receive_packet sfSocketDone (IpAddress.new 192 168 0 9) 4242
        = .returns (.ok ⟨IpAddress.none, 4242⟩)
      ∧ IpAddress.none ≠ IpAddress.new 192 168 0 9 := by
  refine ⟨rfl, rfl, by decide⟩

set_option maxRecDepth 4000 in
/-- Decimal rendering of a byte value parses back to the value, contains
neither the nul byte nor the ASCII dot, and is at most three characters. -/
theorem renderDec_spec : ∀ n < 256, parseDec (renderDec n) = some n
    ∧ (∀ c ∈ renderDec n, c ≠ 0 ∧ c ≠ 46) ∧ (renderDec n).length ≤ 3 := by
  decide

/-- Splitting on the dot peels off a dot-free group before an explicit dot. -/
theorem splitOnDot_append (xs ys : List Nat) (h : ∀ c ∈ xs, c ≠ 46) :
    splitOnDot (xs ++ 46 :: ys) = xs :: splitOnDot ys := by
  induction xs with
  | nil => simp [splitOnDot]
  | cons c rest ih =>
    have hc : c ≠ 46 := h c (List.mem_cons_self c rest)
    have hrest : ∀ x ∈ rest, x ≠ 46 := fun x hx => h x (List.mem_cons_of_mem c hx)
    simp only [List.cons_append, splitOnDot, if_neg hc, List.append_eq, ih hrest]

/-- Splitting a dot-free run gives back the single group. -/
theorem splitOnDot_no_dot (xs : List Nat) (h : ∀ c ∈ xs, c ≠ 46) :
    splitOnDot xs = [xs] := by
  induction xs with
  | nil => rfl
  | cons c rest ih =>
    have hc : c ≠ 46 := h c (List.mem_cons_self c rest)
    have hrest : ∀ x ∈ rest, x ≠ 46 := fun x hx => h x (List.mem_cons_of_mem c hx)
    simp only [splitOnDot, if_neg hc, ih hrest]

/-- Every byte of a dotted-quad text of in-range components is nonzero. -/
theorem quadText_nonzero (a b c d : Nat)
    (ha : a < 256) (hb : b < 256) (hc : c < 256) (hd : d < 256) :
    ∀ x ∈ quadText a b c d, x ≠ 0 := by
  intro x hx
  unfold quadText at hx
  simp only [List.mem_append, List.mem_cons] at hx
  rcases hx with h | h | h | h | h | h | h
  · exact ((renderDec_spec a ha).2.1 x h).1
  · omega
  · exact ((renderDec_spec b hb).2.1 x h).1
  · omega
  · exact ((renderDec_spec c hc).2.1 x h).1
  · omega
  · exact ((renderDec_spec d hd).2.1 x h).1

/-- The dotted-quad text of in-range components splits back into the four
rendered components. -/
theorem splitOnDot_quadText (a b c d : Nat)
    (ha : a < 256) (hb : b < 256) (hc : c < 256) (hd : d < 256) :
    splitOnDot (quadText a b c d)
      = [renderDec a, renderDec b, renderDec c, renderDec d] := by
  unfold quadText
  rw [splitOnDot_append _ _ (fun x hx => ((renderDec_spec a ha).2.1 x hx).2),
    splitOnDot_append _ _ (fun x hx => ((renderDec_spec b hb).2.1 x hx).2),
    splitOnDot_append _ _ (fun x hx => ((renderDec_spec c hc).2.1 x hx).2),
    splitOnDot_no_dot _ (fun x hx => ((renderDec_spec d hd).2.1 x hx).2)]

/-- The dotted-quad text of in-range components parses back to them. -/
theorem parseQuad_quadText (a b c d : Nat)
    (ha : a < 256) (hb : b < 256) (hc : c < 256) (hd : d < 256) :
    parseQuad (quadText a b c d) = some (a, b, c, d) := by
  unfold parseQuad
  rw [splitOnDot_quadText a b c d ha hb hc hd]
  simp only [(renderDec_spec a ha).1, (renderDec_spec b hb).1,
    (renderDec_spec c hc).1, (renderDec_spec d hd).1]
  rw [if_pos ⟨by omega, by omega, by omega, by omega⟩]

/-- Counterexample to the claim C9: `IpAddress::new(1, 2, 3, 4)` Displays as
the byte run of "\x00.\x00.\x00.\x00" (the last four bytes of the 16-byte
buffer joined by dots), not as the dotted-quad text "1.2.3.4". -/
theorem display_new_ip_cex :
    IpAddress.display (IpAddress.new 1 2 3 4) = [0, 46, 0, 46, 0, 46, 0]
      ∧ quadText 1 2 3 4 = [49, 46, 50, 46, 51, 46, 52]
      ∧ IpAddress.display (IpAddress.new 1 2 3 4) ≠ quadText 1 2 3 4 := by
  decide

/-- The claim C9 as amended: for byte components a, b, c, d the address
`IpAddress::new(a, b, c, d)` stores the nul-padded dotted-quad text; parsing
that dotted-quad text through `TryFrom` yields an equal IpAddress; `to_int`
returns (a<<24)|(b<<16)|(c<<8)|d; Display, however, prints the LAST four raw
bytes of the 16-byte buffer joined by dots — the byte run of
"\x00.\x00.\x00.\x00" whenever the text is at most 12 characters — and not the
dotted-quad string. -/
theorem ip_address_amended_spec (a b c d : Nat)
    (ha : a < 256) (hb : b < 256) (hc : c < 256) (hd : d < 256) :
    IpAddress.try_from_str (quadText a b c d) = .ok (IpAddress.new a b c d)
      ∧ IpAddress.to_int (IpAddress.new a b c d)
        = a * 16777216 + b * 65536 + c * 256 + d
      ∧ ((quadText a b c d).length ≤ 12 →
          IpAddress.display (IpAddress.new a b c d) = [0, 46, 0, 46, 0, 46, 0]) := by
  have h0 := quadText_nonzero a b c d ha hb hc hd
  have hquad := parseQuad_quadText a b c d ha hb hc hd
  have htrunc : cStrBytes (IpAddress.new a b c d).address = quadText a b c d := by
    show cStrBytes (padTo16 (quadText a b c d)) = quadText a b c d
    unfold cStrBytes padTo16
    rw [List.takeWhile_append_of_pos (fun x hx => by simpa using h0 x hx),
      List.takeWhile_replicate]
    simp
  refine ⟨?_, ?_, ?_⟩
  · have hnm : (0 : Nat) ∉ quadText a b c d := fun hmem => h0 0 hmem rfl
    simp only [IpAddress.try_from_str, if_neg hnm, sfIpAddress_fromString, hquad]
    rfl
  · simp only [IpAddress.to_int, sfIpAddress_toInteger, htrunc, hquad]
    ring
  · intro hlen
    show joinDot ((((padTo16 (quadText a b c d)).reverse.take 4).reverse).map
      (fun c => [c])) = _
    unfold padTo16
    rw [List.reverse_append, List.reverse_replicate,
      List.take_append_of_le_length (by simp; omega),
      List.take_replicate, Nat.min_eq_left (by omega),
      List.reverse_replicate, List.map_replicate]
    rfl

/-- Witness for the amended C9: at the quad (1, 2, 3, 4) the dotted-quad text
parses back to the same address, `to_int` gives 0x01020304 = 16909060, and
Display yields the byte run of "\x00.\x00.\x00.\x00". -/
theorem ip_address_amended_spec_witness :
    IpAddress.try_from_str (quadText 1 2 3 4) = .ok (IpAddress.new 1 2 3 4)
      ∧ IpAddress.to_int (IpAddress.new 1 2 3 4) = 16909060
      ∧ IpAddress.display (IpAddress.new 1 2 3 4) = [0, 46, 0, 46, 0, 46, 0] := by
  have h := ip_address_amended_spec 1 2 3 4 (by decide) (by decide) (by decide)
    (by decide)
  exact ⟨h.1, h.2.1, h.2.2 (by decide)⟩

end RustCsfml
